import Mathlib

/-!
Shallow embedding of the Driftwood 2D movement / collision / area-transition
core (src/entity.py and src/tilemap.py), with theorems checking the
natural-language specification against the code.

Python conventions modelled here:
* dictionaries with string keys are association lists, looked up with `assoc`
  (`key in d` is `(assoc key d).isSome`);
* Python ints are `Int` (unbounded); Python `%` on ints (result sign follows
  the divisor) is `Int.emod`;
* Python floats are modelled as exact rationals `Frac` (the source only adds,
  subtracts, multiplies, divides by 1000, negates, compares and truncates
  them, so exact rational arithmetic is an exact model up to floating-point
  rounding, which no claim is about);
* fallible code (attribute access on `None`, list index errors, `int()`
  parse errors, comparison of `None` with an int) returns `Except PyErr`;
* `int()` applied to a float truncates toward zero: `Frac.trunc`;
* the pixel→tile division in `Entity._tile_at` is floor division: every
  reachable call site passes pixel coordinates that are exact multiples of
  the tile size, and `layer.py` (absent from the sources) indexes its grid
  by the integer tile coordinate per the spec.
-/

namespace Driftwood

/-- Python exception kinds the embedded code can raise. -/
inductive PyErr
  | typeError
  | valueError
  | indexError
  | attributeError
deriving DecidableEq, Repr

instance {ε α : Type} [DecidableEq ε] [DecidableEq α] : DecidableEq (Except ε α) := fun x y =>
  match x, y with
  | .ok a, .ok b =>
    if h : a = b then isTrue (by rw [h]) else isFalse (fun hh => by cases hh; exact h rfl)
  | .ok _, .error _ => isFalse (fun hh => by cases hh)
  | .error _, .ok _ => isFalse (fun hh => by cases hh)
  | .error e, .error f =>
    if h : e = f then isTrue (by rw [h]) else isFalse (fun hh => by cases hh; exact h rfl)

/-- Python list indexing `l[i]`: negative indices count from the end,
out-of-range indices raise `IndexError`. -/
def pyIndex {α : Type} (l : List α) (i : Int) : Except PyErr α :=
  if h : 0 ≤ i ∧ i < (l.length : Int) then
    .ok (l.get ⟨i.toNat, by omega⟩)
  else if h2 : -(l.length : Int) ≤ i ∧ i < 0 then
    .ok (l.get ⟨(i + (l.length : Int)).toNat, by omega⟩)
  else
    .error .indexError

/-- Exact rational, kept normalized (positive denominator, lowest terms) so
that structural equality is numeric equality. Models a Python float. -/
structure Frac where
  num : Int
  den : Int
deriving DecidableEq, Repr

/-- Normalize a fraction `n / d` (for `d ≠ 0`). -/
def fnorm (n d : Int) : Frac :=
  let n2 := if d < 0 then -n else n
  let d2 := if d < 0 then -d else d
  let g : Int := Int.ofNat (Int.gcd n2 d2)
  if g = 0 then ⟨0, 1⟩ else ⟨Int.tdiv n2 g, Int.tdiv d2 g⟩

def Frac.ofInt (n : Int) : Frac := ⟨n, 1⟩
def Frac.add (a b : Frac) : Frac := fnorm (a.num * b.den + b.num * a.den) (a.den * b.den)
def Frac.sub (a b : Frac) : Frac := fnorm (a.num * b.den - b.num * a.den) (a.den * b.den)
def Frac.mul (a b : Frac) : Frac := fnorm (a.num * b.num) (a.den * b.den)
def Frac.div (a b : Frac) : Frac := fnorm (a.num * b.den) (a.den * b.num)
def Frac.neg (a : Frac) : Frac := ⟨-a.num, a.den⟩

/-- Order on fractions (denominators of constructed values are positive). -/
def Frac.lt (a b : Frac) : Prop := a.num * b.den < b.num * a.den

/-- Python `int()` applied to a float: truncation toward zero. -/
def Frac.trunc (a : Frac) : Int := Int.tdiv a.num a.den

instance : Add Frac := ⟨Frac.add⟩
instance : Sub Frac := ⟨Frac.sub⟩
instance : Mul Frac := ⟨Frac.mul⟩
instance : Div Frac := ⟨Frac.div⟩
instance : Neg Frac := ⟨Frac.neg⟩
instance : LT Frac := ⟨Frac.lt⟩

instance (a b : Frac) : Decidable (a < b) :=
  inferInstanceAs (Decidable (a.num * b.den < b.num * a.den))

/-- Python `str.split(sep)` for a single-character separator, on char lists. -/
def splitCharList (sep : Char) : List Char → List (List Char)
  | [] => [[]]
  | c :: rest =>
    let r := splitCharList sep rest
    if c = sep then [] :: r
    else
      match r with
      | [] => [[c]]
      | h :: t => (c :: h) :: t

/-- Python `s.split(sep)` for a single-character separator. -/
def pySplit (s : String) (sep : Char) : List String :=
  (splitCharList sep s.data).map (fun l => String.mk l)

/-- Helper for `pyToInt`: parse a nonempty digit string. -/
def parseDigits : List Char → Nat → Option Nat
  | [], acc => some acc
  | c :: rest, acc =>
    let n := c.toNat
    if 48 ≤ n ∧ n ≤ 57 then parseDigits rest (acc * 10 + (n - 48)) else none

/-- Python `int()` applied to a string: optional sign and digits, else
`ValueError`. -/
def pyToInt (s : String) : Except PyErr Int :=
  match s.data with
  | [] => .error .valueError
  | '-' :: rest =>
    if rest = [] then .error .valueError
    else match parseDigits rest 0 with
      | some n => .ok (-(n : Int))
      | none => .error .valueError
  | '+' :: rest =>
    if rest = [] then .error .valueError
    else match parseDigits rest 0 with
      | some n => .ok ((n : Int))
      | none => .error .valueError
  | cs => match parseDigits cs 0 with
      | some n => .ok ((n : Int))
      | none => .error .valueError

/-- Dictionary lookup on string-keyed dicts. -/
def assoc (k : String) (m : List (String × String)) : Option String :=
  List.lookup k m

/-- Python `s.startswith(c)` for a single-character argument. -/
def startsChar (s : String) (c : Char) : Bool :=
  match s.data with
  | [] => false
  | c0 :: _ => c0 = c

/-- Python `s[1:]`. -/
def strDrop1 (s : String) : String := String.mk (s.data.drop 1)

/-! ## Data model (TileGraph side: tilemap.py plus tile/layer records) -/

/-- Value of a tile's `nowalk` attribute: absent (`None`), a bool, or a
string. Its Python truthiness is `nowalkTruthy`. -/
inductive Nowalk
  | absent
  | bool (b : Bool)
  | str (s : String)
deriving DecidableEq, Repr

/-- Python truthiness of a `nowalk` value. -/
def nowalkTruthy : Nowalk → Bool
  | .absent => false
  | .bool b => b
  | .str s => s ≠ ""

/-- One tile of a layer. Modelled from the spec (`layer.py` and `tileset.py`
are absent from the sources): integer position, `nowalk` flag, exit strings
and properties. -/
structure Tile where
  pos : Int × Int
  nowalk : Nowalk
  exits : List (String × String)
  properties : List (String × String)
deriving DecidableEq, Repr

/-- One layer: a 2D grid of tiles plus layer properties. Modelled from the
spec (`layer.py` is absent from the sources). -/
structure Layer where
  grid : List (List Tile)
  properties : List (String × String)
deriving DecidableEq, Repr

/-- Modelled from the spec: `Layer.tile(x, y)` returns the tile at integer
coordinates `(x, y)` with `0 ≤ x < width`, `0 ≤ y < height`, else `None`. -/
def Layer.tile (l : Layer) (x y : Int) : Option Tile :=
  if 0 ≤ x ∧ 0 ≤ y then (l.grid.get? y.toNat).bind (fun row => row.get? x.toNat)
  else none

/-- The focused area's map (Tilemap attributes consumed by entity.py). -/
structure Tilemap where
  width : Int
  height : Int
  tilewidth : Int
  tileheight : Int
  properties : List (String × String)
  layers : List Layer
deriving DecidableEq, Repr

/-! ## Data model (entity side: entity.py) -/

/-- The fields of another registry entity that `__can_walk`'s entity loop
reads (`ent.eid`, `ent.x`, `ent.y`). -/
structure OtherEnt where
  eid : Int
  x : Int
  y : Int
deriving DecidableEq, Repr

/-- Ambient state reached through `self.manager`: the focused tilemap, the
entity registry, the player's eid, and the loadable areas (for
`area.focus`, modelled from the spec as a name → tilemap table). -/
structure Env where
  tilemap : Tilemap
  entities : List OtherEnt
  playerEid : Int
  areas : List (String × Tilemap)
deriving DecidableEq, Repr

/-- Mutable state of one `TileModeEntity`. `fracXY` is the sub-tile
accumulator `_partial_xy`; `subscribed` records registration of
`__process_walk` with the tick scheduler. -/
structure Entity where
  eid : Int
  collision : Bool
  layer : Int
  x : Int
  y : Int
  tile : Option Tile
  velocity : Int × Int
  nextVelocity : Int × Int
  fracXY : Frac × Frac
  speed : Frac
  nextArea : Option (List String)
  subscribed : Bool
deriving DecidableEq, Repr

/-- Observable side effects: collision notifications (`_collide` /
`manager.collision`), script invocations, log messages, entity kills and
area focus attempts. -/
inductive Ev
  | collideTile (t : Option Tile)
  | collideEnt (mover other : Int)
  | scriptCall (args : List String)
  | logMsg (lvl src msg : String)
  | kill (eid : Int)
  | focusOk (area : String)
  | focusFail (area : String)
deriving DecidableEq, Repr

/-- Python truthiness of `self._next_area` (None or an empty list is falsy). -/
def pyTruthyArea : Option (List String) → Bool
  | none => false
  | some [] => false
  | some (_ :: _) => true

/-! ## entity.py functions -/

/-- Entity._tile_at (entity.py:140-146): fetch a tile by layer and pixel
coordinates. The layer index can raise `IndexError`; the pixel/tile-size
division is floor division (see the header comment). -/
def tileAt (env : Env) (layer px py : Int) : Except PyErr (Option Tile) :=
  match pyIndex env.tilemap.layers layer with
  | .error er => .error er
  | .ok l => .ok (l.tile (Int.fdiv px env.tilemap.tilewidth) (Int.fdiv py env.tilemap.tileheight))

/-- TileModeEntity.__call_on_tile (entity.py:399-403). Raises
`AttributeError` when `self.tile` is `None`. -/
def callOnTile (e : Entity) : Except PyErr (List Ev) :=
  match e.tile with
  | none => .error .attributeError
  | some t =>
    match assoc "on_tile" t.properties with
    | some v => .ok [.scriptCall (pySplit v ':')]
    | none => .ok []

/-- TileModeEntity.__call_on_layer (entity.py:405-408). -/
def callOnLayer (env : Env) (e : Entity) : Except PyErr (List Ev) :=
  match pyIndex env.tilemap.layers e.layer with
  | .error er => .error er
  | .ok l =>
    match assoc "on_layer" l.properties with
    | some v => .ok [.scriptCall (pySplit v ':')]
    | none => .ok []

/-- The `x % tilewidth != 0` part of teleport's guard, `False` for a
skipped (`None`) coordinate. -/
def misaligned (v? : Option Int) (w : Int) : Bool :=
  match v? with
  | some v => Int.emod v w != 0
  | none => false

/-- TileModeEntity.teleport (entity.py:157-196) with an integer layer
argument (`teleportPy` handles the `None` case). `x` and `y` are tile
coordinates or `None` to skip. -/
def teleport (env : Env) (e : Entity) (layer : Int) (x? y? : Option Int) :
    Except PyErr (Entity × List Ev) :=
  if layer < 0 ∨ (env.tilemap.layers.length : Int) ≤ layer
     ∨ misaligned x? env.tilemap.tilewidth = true
     ∨ misaligned y? env.tilemap.tileheight = true then
    .ok (e, [.logMsg "ERROR" "Entity" "attempted teleport to non-tile position"])
  else
    let e1 := { e with layer := layer }
    let e2 := match x? with
      | some x => { e1 with x := x * env.tilemap.tilewidth }
      | none => e1
    let e3 := match y? with
      | some y => { e2 with y := y * env.tilemap.tileheight }
      | none => e2
    match tileAt env e3.layer e3.x e3.y with
    | .error er => .error er
    | .ok t =>
      let e4 := { e3 with tile := t }
      match callOnTile e4 with
      | .error er => .error er
      | .ok evs1 =>
        match callOnLayer env e4 with
        | .error er => .error er
        | .ok evs2 => .ok (e4, evs1 ++ evs2)

/-- TileModeEntity.teleport at the Python level: the guard
`layer < 0 or len(tilemap.layers) <= layer` is evaluated before the
`layer is not None` skip, so `layer=None` raises `TypeError` (comparison of
`None` with an int). -/
def teleportPy (env : Env) (e : Entity) (layer : Option Int) (x? y? : Option Int) :
    Except PyErr (Entity × List Ev) :=
  match layer with
  | none => .error .typeError
  | some L => teleport env e L x? y?

/-- The `nowalk` test of __can_walk (entity.py:306-316): whether the
destination tile blocks this mover. `isPlayer` is
`manager.player.eid == self.eid`. -/
def nowalkBlocks (nw : Nowalk) (isPlayer : Bool) : Bool :=
  if nowalkTruthy nw || nw == .str "" then
    if (nw == .str "player" && isPlayer) || (nw == .str "npc" && !isPlayer) then true
    else if !(nw == .str "player" || nw == .str "npc") then true
    else false
  else false

/-- The lazy-exit chain of __can_walk (entity.py:321-331): the current
tile's matching directional exit, tried in the order up, down, left,
right. -/
def lazyExit (t : Tile) (x y : Int) : Option String :=
  if (assoc "exit:up" t.exits).isSome ∧ y = -1 then assoc "exit:up" t.exits
  else if (assoc "exit:down" t.exits).isSome ∧ y = 1 then assoc "exit:down" t.exits
  else if (assoc "exit:left" t.exits).isSome ∧ x = -1 then assoc "exit:left" t.exits
  else if (assoc "exit:right" t.exits).isSome ∧ x = 1 then assoc "exit:right" t.exits
  else none

/-- The destination-tile stage of __can_walk (entity.py:304-335): `inl evs`
means the move is blocked with collision events `evs`; `inr e` means fall
through with `_next_area` possibly updated. -/
def tileStage (t : Tile) (dst : Option Tile) (x y : Int) (isPlayer : Bool) (e : Entity) :
    (List Ev) ⊕ Entity :=
  match dst with
  | some d =>
    if nowalkBlocks d.nowalk isPlayer then .inl [.collideTile (some d)] else .inr e
  | none =>
    match lazyExit t x y with
    | some tgt => .inr { e with nextArea := some (pySplit tgt ',') }
    | none => .inl [.collideTile none]

/-- The regular-exit capture of __can_walk (entity.py:337-339). -/
def regularExit (dst : Option Tile) (e : Entity) : Entity :=
  match dst with
  | some d =>
    if pyTruthyArea e.nextArea then e
    else
      match assoc "exit" d.exits with
      | some v => { e with nextArea := some (pySplit v ',') }
      | none => e
  | none => e

/-- The entity-vs-entity loop of __can_walk (entity.py:341-358): the first
other entity satisfying the box test of the source, if any. (Note the
source's test fires when the boxes do NOT overlap.) -/
def entityCheck (tw th : Int) (e : Entity) (ents : List OtherEnt) : Option OtherEnt :=
  ents.find? (fun o => o.eid != e.eid &&
    (decide (e.x + tw < o.x) || decide (e.x > o.x + tw) ||
     decide (e.y + th < o.y) || decide (e.y > o.y + th)))

/-- TileModeEntity.__can_walk (entity.py:282-360). Returns
(permitted, updated entity, events). -/
def canWalk (env : Env) (e : Entity) (x0 y0 : Int) : Except PyErr (Bool × Entity × List Ev) :=
  let xOk := x0 = -1 ∨ x0 = 0 ∨ x0 = 1
  let x := if xOk then x0 else 0
  let evx : List Ev := if xOk then [] else [.logMsg "DEBUG" "Entity" "__can_walk: x not in -1, 0, or 1"]
  let yOk := y0 = -1 ∨ y0 = 0 ∨ y0 = 1
  let y := if yOk then y0 else 0
  let evy : List Ev := if yOk then [] else [.logMsg "DEBUG" "Entity" "__can_walk: y not in -1, 0, or 1"]
  let evs0 := evx ++ evy
  match e.tile with
  | none => .ok (false, e, evs0 ++ [.logMsg "DEBUG" "Entity" "__can_walk: no tile when called"])
  | some t =>
    if e.collision then
      match pyIndex env.tilemap.layers e.layer with
      | .error er => .error er
      | .ok l =>
        let dst := l.tile (t.pos.1 + x) (t.pos.2 + y)
        match tileStage t dst x y (env.playerEid == e.eid) e with
        | .inl evs1 => .ok (false, e, evs0 ++ evs1)
        | .inr e1 =>
          let e2 := regularExit dst e1
          match entityCheck env.tilemap.tilewidth env.tilemap.tileheight e2 env.entities with
          | some o => .ok (false, e2, evs0 ++ [.collideEnt e2.eid o.eid])
          | none => .ok (true, e2, evs0)
    else .ok (true, e, evs0)

/-- TileModeEntity.__change_velocity (entity.py:362-378): reset the
accumulator, set the velocity, and on the idle transition snap to the
current tile's origin and unsubscribe from ticks. -/
def changeVelocity (env : Env) (e : Entity) (vx vy : Int) : Entity :=
  let e1 := { e with fracXY := (Frac.ofInt 0, Frac.ofInt 0), velocity := (vx, vy) }
  if vx = 0 ∧ vy = 0 then
    let e2 := match e1.tile with
      | some t => { e1 with x := t.pos.1 * env.tilemap.tilewidth,
                            y := t.pos.2 * env.tilemap.tileheight }
      | none => e1
    { e2 with subscribed := false }
  else e1

/-- TileModeEntity.__do_layermod (entity.py:410-436): apply a `layermod`
tile property by teleporting across layers, then fire `on_tile` again. -/
def doLayermod (env : Env) (e : Entity) : Except PyErr (Entity × List Ev × Bool) :=
  match e.tile with
  | none => .error .attributeError
  | some t =>
    match assoc "layermod" t.properties with
    | none => .ok (e, [], false)
    | some lm =>
      let tp : Except PyErr (Entity × List Ev) :=
        if startsChar lm '-' then
          match pyToInt (strDrop1 lm) with
          | .error er => .error er
          | .ok n => teleport env e (e.layer - n) none none
        else if startsChar lm '+' then
          match pyToInt (strDrop1 lm) with
          | .error er => .error er
          | .ok n => teleport env e (e.layer + n) none none
        else
          match pyToInt lm with
          | .error er => .error er
          | .ok n => teleport env e n none none
      match tp with
      | .error er => .error er
      | .ok (e1, evs1) =>
        match callOnTile e1 with
        | .error er => .error er
        | .ok evs2 => .ok (e1, evs1 ++ evs2, true)

/-- Arrival handling of __process_walk (entity.py:256-259): if the new tile
resolved, fire `on_tile` and apply any `layermod`. -/
def arrive (env : Env) (e : Entity) : Except PyErr (Entity × List Ev) :=
  match e.tile with
  | none => .ok (e, [])
  | some _ =>
    match callOnTile e with
    | .error er => .error er
    | .ok evs1 =>
      match doLayermod env e with
      | .error er => .error er
      | .ok (e1, evs2, _) => .ok (e1, evs1 ++ evs2)

/-- TileModeEntity._do_exit (entity.py:380-396): fire `on_exit`, focus the
target area, then reposition on success; always clear `_next_area` and fire
`on_tile` for the (possibly re-resolved) current tile. -/
def doExit (env : Env) (e : Entity) : Except PyErr (Env × Entity × List Ev) :=
  let evs0 : List Ev := match assoc "on_exit" env.tilemap.properties with
    | some v => [.scriptCall (pySplit v ':')]
    | none => []
  match e.nextArea with
  | none => .error .typeError
  | some parts =>
    match pyIndex parts 0 with
    | .error er => .error er
    | .ok name =>
      match List.lookup name env.areas with
      | some tm =>
        let env1 := { env with tilemap := tm }
        match pyIndex parts 1 with
        | .error er => .error er
        | .ok ls =>
          match pyToInt ls with
          | .error er => .error er
          | .ok L =>
            match pyIndex parts 2 with
            | .error er => .error er
            | .ok xs =>
              match pyToInt xs with
              | .error er => .error er
              | .ok xi =>
                match pyIndex parts 3 with
                | .error er => .error er
                | .ok ys =>
                  match pyToInt ys with
                  | .error er => .error er
                  | .ok yi =>
                    let e1 := { e with layer := L, x := xi * tm.tilewidth,
                                       y := yi * tm.tileheight }
                    match tileAt env1 e1.layer e1.x e1.y with
                    | .error er => .error er
                    | .ok t =>
                      let e2 := { e1 with tile := t, nextArea := none }
                      match callOnTile e2 with
                      | .error er => .error er
                      | .ok evs2 => .ok (env1, e2, evs0 ++ [.focusOk name] ++ evs2)
      | none =>
        let e1 := { e with nextArea := none }
        match callOnTile e1 with
        | .error er => .error er
        | .ok evs2 => .ok (env, e1, evs0 ++ [.focusFail name] ++ evs2)

/-- The guard that exits the tile-arrival loop of __process_walk
(entity.py:243-247): along some moving axis the accumulator is strictly
inside one tile extent. `tw`, `th` are the loop's local copies. -/
def breakCond (tw th : Int) (e : Entity) : Prop :=
  (e.velocity.1 = -1 ∧ Frac.neg e.fracXY.1 < Frac.ofInt tw) ∨
  (e.velocity.1 = 1 ∧ e.fracXY.1 < Frac.ofInt tw) ∨
  (e.velocity.2 = -1 ∧ Frac.neg e.fracXY.2 < Frac.ofInt th) ∨
  (e.velocity.2 = 1 ∧ e.fracXY.2 < Frac.ofInt th)

instance (tw th : Int) (e : Entity) : Decidable (breakCond tw th e) :=
  inferInstanceAs (Decidable (_ ∨ _ ∨ _ ∨ _))

/-- The non-breaking part of one iteration of the `while True` loop of
__process_walk (entity.py:249-280): cross into the next tile, handle
arrival, exits and velocity changes, and return the state for the next
iteration. `tw`, `th` and `tilePos` are the locals captured before the
loop (the source does not refresh them). -/
def walkStep (tw th : Int) (tilePos : Int × Int) (env : Env) (e : Entity) :
    Except PyErr (Env × Entity × List Ev) :=
  let p : Frac × Frac := (e.fracXY.1 - Frac.ofInt (e.velocity.1 * tw),
                          e.fracXY.2 - Frac.ofInt (e.velocity.2 * th))
  let ntx := tilePos.1 * tw + tw * e.velocity.1
  let nty := tilePos.2 * th + th * e.velocity.2
  match tileAt env e.layer ntx nty with
  | .error er => .error er
  | .ok t =>
    match arrive env { e with fracXY := p, tile := t } with
    | .error er => .error er
    | .ok (e2, evs1) =>
      let exitStage : Except PyErr (Env × Entity × List Ev) :=
        if pyTruthyArea e2.nextArea then
          if env.playerEid == e2.eid then
            match doExit env e2 with
            | .error er => .error er
            | .ok (env3, e3, evs2) =>
              .ok (env3, changeVelocity env3 e3 e3.nextVelocity.1 e3.nextVelocity.2, evs2)
          else
            .ok ({ env with entities := env.entities.filter (fun o => o.eid != e2.eid) },
                 e2, [.kill e2.eid])
        else .ok (env, e2, [])
      match exitStage with
      | .error er => .error er
      | .ok (env4, e4, evs2) =>
        let velStage : Except PyErr (Env × Entity × List Ev) :=
          if e4.velocity ≠ e4.nextVelocity then
            match canWalk env4 e4 e4.nextVelocity.1 e4.nextVelocity.2 with
            | .error er => .error er
            | .ok (ok, e5, evs3) =>
              .ok (env4,
                   (if ok then changeVelocity env4 e5 e5.nextVelocity.1 e5.nextVelocity.2
                    else changeVelocity env4 e5 0 0),
                   evs3)
          else
            match canWalk env4 e4 e4.velocity.1 e4.velocity.2 with
            | .error er => .error er
            | .ok (ok, e5, evs3) =>
              .ok (env4, (if ok then e5 else changeVelocity env4 e5 0 0), evs3)
        match velStage with
        | .error er => .error er
        | .ok (env5, e6, evs3) => .ok (env5, e6, evs1 ++ evs2 ++ evs3)

/-- One iteration of the `while True` loop of __process_walk
(entity.py:239-280). `inl` is a `break` (the loop's result, entity state
untouched by the iteration); `inr` is the state passed to the next
iteration. -/
def walkBody (tw th : Int) (tilePos : Int × Int) (env : Env) (e : Entity) :
    Except PyErr ((Env × Entity × List Ev) ⊕ (Env × Entity × List Ev)) :=
  if e.velocity = (0, 0) then .ok (.inl (env, e, []))
  else if breakCond tw th e then .ok (.inl (env, e, []))
  else Except.map .inr (walkStep tw th tilePos env e)

/-- The `while True` loop of __process_walk (entity.py:239-280), with
explicit fuel (`.ok none` = fuel exhausted before a `break`). -/
def walkLoop (fuel : Nat) (tw th : Int) (tilePos : Int × Int) (env : Env) (e : Entity) :
    Except PyErr (Option (Env × Entity × List Ev)) :=
  match fuel with
  | 0 => .ok none
  | Nat.succ fuel2 =>
    match walkBody tw th tilePos env e with
    | .error er => .error er
    | .ok (.inl r) => .ok (some r)
    | .ok (.inr (env2, e2, evs)) =>
      match walkLoop fuel2 tw th tilePos env2 e2 with
      | .error er => .error er
      | .ok none => .ok none
      | .ok (some (envF, eF, evsF)) => .ok (some (envF, eF, evs ++ evsF))

/-- TileModeEntity.__process_walk (entity.py:207-280): one tick of walking,
with `millis` the elapsed milliseconds and explicit loop fuel. -/
def processWalk (env : Env) (e : Entity) (millis : Frac) (fuel : Nat) :
    Except PyErr (Option (Env × Entity × List Ev)) :=
  let accel : Except PyErr ((Entity × List Ev) ⊕ (Entity × List Ev)) :=
    if e.velocity = (0, 0) then
      let evs0 : List Ev :=
        if e.nextVelocity = (0, 0) then
          [.logMsg "DEBUG" "Entity" "__process_walk: velocity and next_velocity (0, 0)"]
        else []
      match canWalk env e e.nextVelocity.1 e.nextVelocity.2 with
      | .error er => .error er
      | .ok (true, e1, evs1) =>
        .ok (.inr (changeVelocity env e1 e1.nextVelocity.1 e1.nextVelocity.2, evs0 ++ evs1))
      | .ok (false, e1, evs1) => .ok (.inl (e1, evs0 ++ evs1))
    else .ok (.inr (e, []))
  match accel with
  | .error er => .error er
  | .ok (.inl (e1, evs)) => .ok (some (env, e1, evs))
  | .ok (.inr (e1, evs)) =>
    let tw := env.tilemap.tilewidth
    let th := env.tilemap.tileheight
    match e1.tile with
    | none => .error .attributeError
    | some t =>
      let tilePos := t.pos
      let p0 := e1.fracXY.1 + Frac.ofInt e1.velocity.1 * e1.speed * millis / Frac.ofInt 1000
      let p1 := e1.fracXY.2 + Frac.ofInt e1.velocity.2 * e1.speed * millis / Frac.ofInt 1000
      let e2 := { e1 with fracXY := (p0, p1),
                          x := Frac.trunc (Frac.ofInt (tilePos.1 * tw) + p0),
                          y := Frac.trunc (Frac.ofInt (tilePos.2 * th) + p1) }
      match walkLoop fuel tw th tilePos env e2 with
      | .error er => .error er
      | .ok none => .ok none
      | .ok (some (envF, eF, evsF)) => .ok (some (envF, eF, evs ++ evsF))

/-! ## tilemap.py: Tilemap._read as an event trace

For claim C3 only the ordering of `_read`'s steps matters, so the
construction is modelled as the ordered list of its observable steps:
script invocation for `on_enter`, window title, tileset construction,
layer construction, and object-layer merging. -/

/-- One entry of the Tiled map's `layers` array, as far as `_read` inspects
it (`l["type"]` and `l["visible"]`). -/
structure LayerDesc where
  ltype : String
  visible : Bool
deriving DecidableEq, Repr

/-- A Tiled map description, as far as `_read` inspects it. `properties`
is `none` when the JSON has no `properties` key. -/
structure MapDesc where
  width : Int
  height : Int
  tilewidth : Int
  tileheight : Int
  properties : Option (List (String × String))
  tilesets : List String
  layers : List LayerDesc
deriving DecidableEq, Repr

/-- Steps of `Tilemap._read`, in execution order. -/
inductive REv
  | script (args : List String)
  | title (s : String)
  | tilesetBuilt (name : String)
  | layerBuilt (zpos : Nat)
  | objMergedInto (zpos : Nat)
  | globalMerged (layerIdx : Nat)
deriving DecidableEq, Repr

/-- The layer loop of Tilemap._read (tilemap.py:110-126): `built` counts
tile layers built so far (`self.layers`), `gobj` holds the captured global
object layer's position. -/
def readLayers : List (Nat × LayerDesc) → Nat → Option Nat → List REv × Nat × Option Nat
  | [], built, gobj => ([], built, gobj)
  | (z, l) :: rest, built, gobj =>
    if !l.visible then readLayers rest built gobj
    else if l.ltype = "tilelayer" then
      let r := readLayers rest (built + 1) gobj
      (REv.layerBuilt z :: r.1, r.2)
    else if l.ltype = "objectgroup" then
      if built = 0 then readLayers rest built (some z)
      else
        let r := readLayers rest built gobj
        (REv.objMergedInto z :: r.1, r.2)
    else readLayers rest built gobj

/-- Tilemap._read (tilemap.py:68-131) as its ordered step trace. -/
def tmRead (d : MapDesc) : List REv :=
  let props := match d.properties with
    | some p => p
    | none => []
  let evA : List REv := match assoc "on_enter" props with
    | some v => [REv.script (pySplit v ':')]
    | none => []
  let evB : List REv := match assoc "title" props with
    | some v => [REv.title v]
    | none => []
  let evC := d.tilesets.map REv.tilesetBuilt
  let r := readLayers d.layers.enum 0 none
  let gevs : List REv := match r.2.2 with
    | some _ => (List.range r.2.1).map REv.globalMerged
    | none => []
  evA ++ evB ++ evC ++ r.1 ++ gevs

/-- Whether a `_read` step is the `on_enter` script invocation. -/
def isOnEnterEv : REv → Bool
  | .script _ => true
  | _ => false

/-- Whether a `_read` step builds part of the graph (tilesets, layers,
object merging). -/
def isBuildEv : REv → Bool
  | .tilesetBuilt _ => true
  | .layerBuilt _ => true
  | .objMergedInto _ => true
  | .globalMerged _ => true
  | _ => false

/-! ## Concrete fixtures used by counterexamples and witnesses -/

/-- A featureless walkable tile at `(x, y)`. -/
def plainTile (x y : Int) : Tile := ⟨(x, y), .absent, [], []⟩

/-- A `w × h` grid of featureless walkable tiles. -/
def plainGrid (w h : Nat) : List (List Tile) :=
  (List.range h).map (fun y => (List.range w).map (fun x => plainTile x y))

/-- Whether an event is a script invocation. -/
def isScriptEv : Ev → Bool
  | .scriptCall _ => true
  | _ => false

/-- A 3×3 all-walkable map with 16×16 tiles. -/
def mapA : Tilemap := ⟨3, 3, 16, 16, [], [⟨plainGrid 3 3, []⟩]⟩

/-- An idle collision-enabled entity resting on tile (0,0) of `mapA`. -/
def entA : Entity :=
  ⟨1, true, 0, 0, 0, some (plainTile 0 0), (0, 0), (0, 0),
   (Frac.ofInt 0, Frac.ofInt 0), Frac.ofInt 64, none, true⟩

/-- `mapA` with only the mover registered, the mover being the player. -/
def envA : Env := ⟨mapA, [⟨1, 0, 0⟩], 1, []⟩

/-- `envA` plus a second entity far away at pixel (100, 100). -/
def envFar : Env := ⟨mapA, [⟨1, 0, 0⟩, ⟨2, 100, 100⟩], 1, []⟩

/-- `envA` plus a second entity overlapping the mover at pixel (8, 8). -/
def envNear : Env := ⟨mapA, [⟨1, 0, 0⟩, ⟨2, 8, 8⟩], 1, []⟩

/-- A tile at (0,0) carrying a lazy upward exit. -/
def exitTile : Tile := ⟨(0, 0), .absent, [("exit:up", "forest,0,2,3")], []⟩

/-- The single layer of `mapC2`. -/
def layerC2 : Layer :=
  ⟨[[exitTile, plainTile 1 0, plainTile 2 0],
    [plainTile 0 1, plainTile 1 1, plainTile 2 1],
    [plainTile 0 2, plainTile 1 2, plainTile 2 2]], []⟩

/-- `mapA` with the lazy-exit tile in its top-left corner. -/
def mapC2 : Tilemap := ⟨3, 3, 16, 16, [], [layerC2]⟩

/-- The mover resting on the lazy-exit tile. -/
def entC2 : Entity :=
  ⟨1, true, 0, 0, 0, some exitTile, (0, 0), (0, 0),
   (Frac.ofInt 0, Frac.ofInt 0), Frac.ofInt 64, none, true⟩

/-- `mapC2` with a second, distant entity registered. -/
def envC2 : Env := ⟨mapC2, [⟨1, 0, 0⟩, ⟨2, 100, 100⟩], 1, []⟩

/-- `mapC2` with only the mover registered. -/
def envC2alone : Env := ⟨mapC2, [⟨1, 0, 0⟩], 1, []⟩

/-- An arrival tile carrying `on_tile` and `layermod:"+1"`. -/
def arrTile : Tile := ⟨(0, 0), .absent, [], [("on_tile", "a:f"), ("layermod", "+1")]⟩

/-- The corresponding tile one layer up, carrying its own `on_tile`. -/
def upTile : Tile := ⟨(0, 0), .absent, [], [("on_tile", "b:g")]⟩

/-- The upper layer of `mapC4`. -/
def layerC4up : Layer := ⟨[[upTile]], []⟩

/-- A two-layer 1×1 map for the layermod scenario. -/
def mapC4 : Tilemap := ⟨1, 1, 16, 16, [], [⟨[[arrTile]], []⟩, layerC4up]⟩

/-- An entity that has just arrived on `arrTile` while walking right. -/
def entC4 : Entity :=
  ⟨1, true, 0, 0, 0, some arrTile, (1, 0), (1, 0),
   (Frac.ofInt 0, Frac.ofInt 0), Frac.ofInt 64, none, true⟩

/-- Environment for the layermod scenario. -/
def envC4 : Env := ⟨mapC4, [⟨1, 0, 0⟩], 1, []⟩

/-- A 4×4 all-walkable map with unequal tile extents 16×32. -/
def mapC7 : Tilemap := ⟨4, 4, 16, 32, [], [⟨plainGrid 4 4, []⟩]⟩

/-- A collision-disabled entity walking diagonally from tile (1,1) of
`mapC7` at 40 px/s. -/
def entC7 : Entity :=
  ⟨1, false, 0, 16, 32, some (plainTile 1 1), (1, 1), (1, 1),
   (Frac.ofInt 0, Frac.ofInt 0), Frac.ofInt 40, none, true⟩

/-- Environment for the diagonal-walk scenario. -/
def envC7 : Env := ⟨mapC7, [⟨1, 16, 32⟩], 1, []⟩

/-- The state the diagonal walker reaches after one 1000 ms tick: the
x-axis accumulator retains 24 ≥ 16 = tilewidth. -/
def entC7Final : Entity :=
  ⟨1, false, 0, 56, 72, some (plainTile 2 2), (1, 1), (1, 1),
   (⟨24, 1⟩, ⟨8, 1⟩), Frac.ofInt 40, none, true⟩

/-- `entC7` at rest (used to witness the loop-exit bound). -/
def entIdle : Entity :=
  ⟨1, false, 0, 16, 32, some (plainTile 1 1), (0, 0), (0, 0),
   (Frac.ofInt 0, Frac.ofInt 0), Frac.ofInt 40, none, true⟩

/-- A destination tile whose `nowalk` is the empty string (unconditional). -/
def wallTile : Tile := ⟨(1, 0), .str "", [], []⟩

/-- The single layer of `mapC5`. -/
def layerC5 : Layer :=
  ⟨[[plainTile 0 0, wallTile, plainTile 2 0],
    [plainTile 0 1, plainTile 1 1, plainTile 2 1],
    [plainTile 0 2, plainTile 1 2, plainTile 2 2]], []⟩

/-- `mapA` with `wallTile` at (1,0). -/
def mapC5 : Tilemap := ⟨3, 3, 16, 16, [], [layerC5]⟩

/-- Environment for the nowalk scenario. -/
def envC5 : Env := ⟨mapC5, [⟨1, 0, 0⟩], 1, []⟩

/-- An entity with a pending transition to an unknown area. -/
def entC9 : Entity :=
  ⟨1, true, 0, 0, 0, some (plainTile 0 0), (1, 0), (1, 0),
   (Frac.ofInt 0, Frac.ofInt 0), Frac.ofInt 64, some ["nowhere", "0", "0", "0"], true⟩

/-- Map description with `on_enter`, one tileset and one visible tile
layer. -/
def mapDescC3 : MapDesc :=
  ⟨3, 3, 16, 16, some [("on_enter", "s:f")], ["ts"], [⟨"tilelayer", true⟩]⟩

/-- Does some graph-building step of `_read` execute after the (first)
`on_enter` script invocation? -/
def buildAfterScript (tr : List REv) : Bool :=
  ((tr.dropWhile (fun ev => !isOnEnterEv ev)).tail.countP isBuildEv) != 0

/-! ## Helper lemmas -/

theorem pyIndex_cons_zero {α : Type} (a : α) (l : List α) : pyIndex (a :: l) 0 = .ok a := by
  simp [pyIndex]

theorem entityCheck_none_of_alone (tw th : Int) (e : Entity) (ents : List OtherEnt)
    (h : ∀ o ∈ ents, o.eid = e.eid) : entityCheck tw th e ents = none := by
  unfold entityCheck
  rw [List.find?_eq_none]
  intro o ho
  simp [h o ho]

theorem walkBody_inl (tw th : Int) (tp : Int × Int) (env : Env) (e : Entity)
    (r : Env × Entity × List Ev)
    (h : walkBody tw th tp env e = .ok (.inl r)) :
    r.2.1.velocity = (0, 0) ∨ breakCond tw th r.2.1 := by
  unfold walkBody at h
  split at h
  · simp only [Except.ok.injEq, Sum.inl.injEq] at h
    subst h
    rename_i hv
    exact Or.inl hv
  · split at h
    · simp only [Except.ok.injEq, Sum.inl.injEq] at h
      subst h
      rename_i hb
      exact Or.inr hb
    · exfalso
      cases hws : walkStep tw th tp env e <;> simp [hws, Except.map] at h

/-! ## Theorems -/

/-- C1 (code bug): the entity-vs-entity test of `__can_walk` is inverted.
With a second live entity at pixel (100,100) — whose box does not
intersect the mover's box at (0,0) with 16×16 tile extents — the move is
blocked and a collision event between the pair is raised; with the second
entity overlapping the mover at (8,8), the move is permitted. The claim
(and entity.py's own pixel-mode twin, which tests `if not (...)`) says
precisely the opposite. -/
theorem can_walk_entity_box_test_inverted :
    canWalk envFar entA 1 0 = .ok (false, entA, [.collideEnt 1 2]) ∧
    (entA.x + mapA.tilewidth < (100 : Int)) ∧
    canWalk envNear entA 1 0 = .ok (true, entA, []) ∧
    ¬(entA.x + mapA.tilewidth < (8 : Int) ∨ entA.x > 8 + mapA.tilewidth ∨
      entA.y + mapA.tileheight < (8 : Int) ∨ entA.y > 8 + mapA.tileheight) := by
  refine ⟨by decide, by decide, by decide, by decide⟩

/-- C8 (code bug): `teleport`'s alignment guard tests the *tile*
coordinate against `x % tilewidth != 0`, so teleporting to the perfectly
valid in-bounds tile (1, 0) of a 3×3 map with 16×16 tiles is rejected as a
"non-tile position" and the entity is left unchanged — the round-trip
property fails for every tile coordinate that is not a multiple of the
tile size. -/
theorem teleport_rejects_plain_tile_coords :
    teleport envA entA 0 (some 1) (some 0) =
      .ok (entA, [.logMsg "ERROR" "Entity" "attempted teleport to non-tile position"]) ∧
    entA.x = 0 ∧ (1 : Int) * mapA.tilewidth = 16 ∧ entA.x ≠ 16 := by
  refine ⟨by decide, by decide, by decide, by decide⟩

/-- C10 (confirmed): `teleport` evaluates `layer < 0` before the
`layer is not None` skip, so a `None` layer raises `TypeError` instead of
being skipped, while `x` and `y` may each be `None` (the same call with an
integer layer and both coordinates `None` succeeds and moves nothing). -/
theorem teleport_layer_none_is_error :
    (∀ (env : Env) (e : Entity) (x? y? : Option Int),
        teleportPy env e none x? y? = .error .typeError) ∧
    teleportPy envA entA (some 0) none none = .ok (entA, []) := by
  exact ⟨fun env e x? y? => rfl, by decide⟩

/-- C2 (counterexample): at a concrete state whose destination tile is off
the grid and whose current tile declares the matching `exit:up`, the move
is nevertheless blocked (with a collision event) because the entity-vs-
entity check still runs afterwards — here against a distant second entity.
So "permitted if and only if the current tile declares the matching
directional exit" is false as stated. -/
theorem lazy_exit_blocked_by_second_entity :
    (assoc "exit:up" exitTile.exits).isSome = true ∧
    canWalk envC2 entC2 0 (-1) =
      .ok (false, { entC2 with nextArea := some ["forest", "0", "2", "3"] },
           [.collideEnt 1 2]) := by
  refine ⟨by decide, by decide⟩

/-- C3 (counterexample): for a map description carrying `on_enter`, one
tileset and one visible tile layer, `_read`'s trace invokes the script
bridge first and builds the tileset and layer afterwards — so the
invocation does not happen after the graph is fully built. -/
theorem on_enter_fires_before_graph_built :
    tmRead mapDescC3 = [.script ["s", "f"], .tilesetBuilt "ts", .layerBuilt 0] ∧
    buildAfterScript (tmRead mapDescC3) = true := by
  refine ⟨by decide, by decide⟩

/-- C4 (counterexample): arriving on a tile with `layermod:"+1"` and
`on_tile:"a:f"`, above a tile with `on_tile:"b:g"`, raises the layer by 1
but fires the on_tile script THREE times (once for the arrival tile, twice
for the new-layer tile: once inside `teleport` and once more in
`__do_layermod`), not twice as claimed. -/
theorem layermod_fires_on_tile_three_times :
    arrive envC4 entC4 =
      .ok ({ entC4 with layer := 1, tile := some upTile },
           [.scriptCall ["a", "f"], .scriptCall ["b", "g"], .scriptCall ["b", "g"]]) ∧
    (arrive envC4 entC4).map (fun r => r.2.countP isScriptEv) = .ok 3 ∧
    (3 : Nat) ≠ 2 := by
  refine ⟨by decide, by decide, by decide⟩

/-- C7 (counterexample): a diagonal walker on a map with unequal tile
extents (16×32), given a single 1000 ms tick at 40 px/s, finishes the
tile-crossing resolution loop with its x-axis accumulator at 24, which is
not strictly less than the 16-pixel tile width — the per-axis bound fails
as stated. -/
theorem diagonal_walk_accumulator_exceeds_extent :
    processWalk envC7 entC7 (Frac.ofInt 1000) 5 = .ok (some (envC7, entC7Final, [])) ∧
    ¬(entC7Final.fracXY.1 < Frac.ofInt mapC7.tilewidth) := by
  refine ⟨by decide, by decide⟩

/-- C7 (amended): whenever the tile-crossing resolution loop of
__process_walk returns normally, the finishing entity either has zero
velocity (its accumulator was just reset by `__change_velocity`) or
satisfies the loop's exit guard: the accumulator is strictly inside one
tile extent along at least ONE moving axis. The per-axis bound of the
claim holds for axis-aligned travel (where the guard has a single
conjunct) but not per-axis for diagonal travel, as the counterexample
shows. -/
theorem walk_loop_accumulator_bound (fuel : Nat) (tw th : Int) (tp : Int × Int)
    (env : Env) (e : Entity) (r : Env × Entity × List Ev)
    (h : walkLoop fuel tw th tp env e = .ok (some r)) :
    r.2.1.velocity = (0, 0) ∨ breakCond tw th r.2.1 := by
  induction fuel generalizing env e r with
  | zero => simp [walkLoop] at h
  | succ n ih =>
    rw [walkLoop] at h
    cases hwb : walkBody tw th tp env e with
    | error er => rw [hwb] at h; cases h
    | ok s =>
      rw [hwb] at h
      cases s with
      | inl r0 =>
        simp only [Except.ok.injEq, Option.some.injEq] at h
        subst h
        exact walkBody_inl tw th tp env e r0 hwb
      | inr s2 =>
        obtain ⟨env2, e2, evs⟩ := s2
        simp only at h
        cases hwl : walkLoop n tw th tp env2 e2 with
        | error er => rw [hwl] at h; cases h
        | ok o =>
          rw [hwl] at h
          cases o with
          | none => cases h
          | some rf =>
            obtain ⟨envF, eF, evsF⟩ := rf
            simp only [Except.ok.injEq, Option.some.injEq] at h
            have hb := ih env2 e2 (envF, eF, evsF) hwl
            rw [← h]
            simpa using hb

/-- C7 (witness): the loop-exit bound applied to a concrete idle entity. -/
theorem walk_loop_accumulator_bound_witness :
    walkLoop 1 16 32 (0, 0) envC7 entIdle = .ok (some (envC7, entIdle, [])) ∧
    (entIdle.velocity = (0, 0) ∨ breakCond 16 32 entIdle) :=
  ⟨by decide,
   walk_loop_accumulator_bound 1 16 32 (0, 0) envC7 entIdle (envC7, entIdle, []) (by decide)⟩

/-- C6 (confirmed): `__change_velocity` to (0,0) — the idle transition —
snaps the pixel position exactly to the current tile's origin,
unsubscribes the entity from tick processing, and therefore leaves both
pixel coordinates exact multiples of the tile extents. -/
theorem idle_transition_snaps_and_unsubscribes (env : Env) (e : Entity) (t : Tile)
    (h : e.tile = some t) :
    (changeVelocity env e 0 0).x = t.pos.1 * env.tilemap.tilewidth ∧
    (changeVelocity env e 0 0).y = t.pos.2 * env.tilemap.tileheight ∧
    (changeVelocity env e 0 0).subscribed = false ∧
    (changeVelocity env e 0 0).velocity = (0, 0) ∧
    (changeVelocity env e 0 0).x % env.tilemap.tilewidth = 0 ∧
    (changeVelocity env e 0 0).y % env.tilemap.tileheight = 0 := by
  simp [changeVelocity, h, Int.mul_emod_left]

/-- C6 (witness): the idle snap applied to a concrete entity. -/
theorem idle_transition_snaps_witness :
    entA.tile = some (plainTile 0 0) ∧
    ((changeVelocity envA entA 0 0).x = (plainTile 0 0).pos.1 * envA.tilemap.tilewidth ∧
     (changeVelocity envA entA 0 0).y = (plainTile 0 0).pos.2 * envA.tilemap.tileheight ∧
     (changeVelocity envA entA 0 0).subscribed = false ∧
     (changeVelocity envA entA 0 0).velocity = (0, 0) ∧
     (changeVelocity envA entA 0 0).x % envA.tilemap.tilewidth = 0 ∧
     (changeVelocity envA entA 0 0).y % envA.tilemap.tileheight = 0) :=
  ⟨rfl, idle_transition_snaps_and_unsubscribes envA entA (plainTile 0 0) rfl⟩

/-- C9 (confirmed): when the pending area transition's focus fails,
`_do_exit` clears `_next_area`, leaves layer, x, y and the (stale) tile
reference unchanged, and still invokes `on_tile` for that stale tile; if
the stale tile is unresolved (`None`), the unconditional `on_tile` call
raises `AttributeError`. -/
theorem do_exit_focus_failure (env : Env) (e : Entity) (name : String) (rest : List String)
    (h1 : e.nextArea = some (name :: rest))
    (h2 : List.lookup name env.areas = none) :
    (∀ t, e.tile = some t →
      doExit env e = .ok (env, { e with nextArea := none },
        (match assoc "on_exit" env.tilemap.properties with
         | some v => [Ev.scriptCall (pySplit v ':')]
         | none => []) ++ [Ev.focusFail name] ++
        (match assoc "on_tile" t.properties with
         | some v => [Ev.scriptCall (pySplit v ':')]
         | none => []))) ∧
    (e.tile = none → doExit env e = .error .attributeError) := by
  constructor
  · intro t ht
    unfold doExit
    rw [h1]
    simp only [pyIndex_cons_zero, h2]
    unfold callOnTile
    simp only [ht]
    cases hot : assoc "on_tile" t.properties <;> simp [hot]
  · intro ht
    unfold doExit
    rw [h1]
    simp only [pyIndex_cons_zero, h2]
    unfold callOnTile
    simp only [ht]

/-- C9 (witness): the focus-failure behavior applied to a concrete entity
with a pending transition to an unknown area. -/
theorem do_exit_focus_failure_witness :
    entC9.nextArea = some ("nowhere" :: ["0", "0", "0"]) ∧
    List.lookup "nowhere" envA.areas = none ∧
    doExit envA entC9 = .ok (envA, { entC9 with nextArea := none },
      [Ev.focusFail "nowhere"]) :=
  ⟨rfl, rfl, by
    have hh := (do_exit_focus_failure envA entC9 "nowhere" ["0", "0", "0"] rfl rfl).1
      (plainTile 0 0) rfl
    simpa using hh⟩

/-- C5 (confirmed): for a collision-enabled mover with a resolved tile and
an existing destination tile whose `nowalk` is one of the documented
tri-state values, the tile check of `__can_walk` blocks exactly for:
`nowalk` true, the empty string, `"player"` when the mover is the player,
or `"npc"` when it is not; every blocking case makes `__can_walk` return
blocked with a collision event carrying the destination tile, and a
non-blocking `nowalk` lets the tile stage fall through unchanged. -/
theorem nowalk_tristate_check (env : Env) (e : Entity) (t d : Tile) (l : Layer) (dx dy : Int)
    (h1 : e.collision = true) (h2 : e.tile = some t)
    (h3 : dx = -1 ∨ dx = 0 ∨ dx = 1) (h4 : dy = -1 ∨ dy = 0 ∨ dy = 1)
    (h5 : pyIndex env.tilemap.layers e.layer = .ok l)
    (h6 : l.tile (t.pos.1 + dx) (t.pos.2 + dy) = some d)
    (h7 : d.nowalk = .absent ∨ (∃ b, d.nowalk = .bool b) ∨ d.nowalk = .str "" ∨
          d.nowalk = .str "player" ∨ d.nowalk = .str "npc") :
    (nowalkBlocks d.nowalk (env.playerEid == e.eid) =
      ((d.nowalk == .bool true) || (d.nowalk == .str "") ||
       ((d.nowalk == .str "player") && (env.playerEid == e.eid)) ||
       ((d.nowalk == .str "npc") && !(env.playerEid == e.eid)))) ∧
    (nowalkBlocks d.nowalk (env.playerEid == e.eid) = true →
      canWalk env e dx dy = .ok (false, e, [.collideTile (some d)])) ∧
    (nowalkBlocks d.nowalk (env.playerEid == e.eid) = false →
      tileStage t (some d) dx dy (env.playerEid == e.eid) e = .inr e) := by
  refine ⟨?_, ?_, ?_⟩
  · rcases h7 with h | ⟨b, h⟩ | h | h | h
    · rw [h]; rfl
    · rw [h]; cases b <;> rfl
    · rw [h]; rfl
    · rw [h]; cases env.playerEid == e.eid <;> rfl
    · rw [h]; cases env.playerEid == e.eid <;> rfl
  · intro hb
    clear h7
    rcases h3 with rfl | rfl | rfl <;> rcases h4 with rfl | rfl | rfl <;>
      simp_all [canWalk, tileStage]
  · intro hnb
    simp [tileStage, hnb]

/-- C5 (witness): the tri-state check applied to a concrete mover facing
an empty-string `nowalk` wall. -/
theorem nowalk_tristate_check_witness :
    entA.collision = true ∧ entA.tile = some (plainTile 0 0) ∧
    pyIndex envC5.tilemap.layers entA.layer = .ok layerC5 ∧
    layerC5.tile ((plainTile 0 0).pos.1 + 1) ((plainTile 0 0).pos.2 + 0) = some wallTile ∧
    ((nowalkBlocks wallTile.nowalk (envC5.playerEid == entA.eid) =
       ((wallTile.nowalk == .bool true) || (wallTile.nowalk == .str "") ||
        ((wallTile.nowalk == .str "player") && (envC5.playerEid == entA.eid)) ||
        ((wallTile.nowalk == .str "npc") && !(envC5.playerEid == entA.eid)))) ∧
     (nowalkBlocks wallTile.nowalk (envC5.playerEid == entA.eid) = true →
       canWalk envC5 entA 1 0 = .ok (false, entA, [.collideTile (some wallTile)])) ∧
     (nowalkBlocks wallTile.nowalk (envC5.playerEid == entA.eid) = false →
       tileStage (plainTile 0 0) (some wallTile) 1 0 (envC5.playerEid == entA.eid) entA =
         .inr entA)) :=
  ⟨rfl, rfl, by decide, by decide,
   nowalk_tristate_check envC5 entA (plainTile 0 0) wallTile layerC5 1 0 rfl rfl
     (by decide) (by decide) (by decide) (by decide) (by decide)⟩

/-- C2 (amended): for a collision-enabled mover with a resolved tile whose
destination tile is off the grid, PROVIDED the subsequent entity-vs-entity
check raises nothing (here: no other live entity shares the registry),
`__can_walk` permits the move exactly when the current tile declares the
directional lazy exit matching the motion (`exit:up` for dy=-1,
`exit:down` for dy=1, `exit:left` for dx=-1, `exit:right` for dx=1, tried
in that order); a matching exit's comma-split target is stored as the
pending area transition, and otherwise a collision event is raised and the
move is blocked. Without the proviso the claim fails: the entity check
still runs after a lazy exit is captured (see the counterexample). -/
theorem lazy_exit_decides_offgrid_move (env : Env) (e : Entity) (t : Tile) (l : Layer)
    (dx dy : Int)
    (h1 : e.collision = true) (h2 : e.tile = some t)
    (h3 : dx = -1 ∨ dx = 0 ∨ dx = 1) (h4 : dy = -1 ∨ dy = 0 ∨ dy = 1)
    (h5 : pyIndex env.tilemap.layers e.layer = .ok l)
    (h6 : l.tile (t.pos.1 + dx) (t.pos.2 + dy) = none)
    (h7 : ∀ o ∈ env.entities, o.eid = e.eid) :
    ((lazyExit t dx dy).isSome = true ↔
      (((assoc "exit:up" t.exits).isSome ∧ dy = -1) ∨
       ((assoc "exit:down" t.exits).isSome ∧ dy = 1) ∨
       ((assoc "exit:left" t.exits).isSome ∧ dx = -1) ∨
       ((assoc "exit:right" t.exits).isSome ∧ dx = 1))) ∧
    (∀ tgt, lazyExit t dx dy = some tgt →
      canWalk env e dx dy =
        .ok (true, { e with nextArea := some (pySplit tgt ',') }, [])) ∧
    (lazyExit t dx dy = none →
      canWalk env e dx dy = .ok (false, e, [.collideTile none])) := by
  refine ⟨?_, ?_, ?_⟩
  · unfold lazyExit
    split_ifs with hA hB hC hD <;> simp_all
  · intro tgt htgt
    have hec : entityCheck env.tilemap.tilewidth env.tilemap.tileheight
        { e with nextArea := some (pySplit tgt ',') } env.entities = none :=
      entityCheck_none_of_alone _ _ _ _ (fun o ho => h7 o ho)
    clear h7
    rcases h3 with rfl | rfl | rfl <;> rcases h4 with rfl | rfl | rfl <;>
      simp_all [canWalk, tileStage, regularExit]
  · intro hnone
    clear h7
    rcases h3 with rfl | rfl | rfl <;> rcases h4 with rfl | rfl | rfl <;>
      simp_all [canWalk, tileStage]

/-- C2 (witness): the lazy-exit rule applied to a concrete mover alone on
`mapC2`, walking up off the grid from the exit tile. -/
theorem lazy_exit_decides_offgrid_move_witness :
    entC2.collision = true ∧ entC2.tile = some exitTile ∧
    layerC2.tile (exitTile.pos.1 + 0) (exitTile.pos.2 + -1) = none ∧
    lazyExit exitTile 0 (-1) = some "forest,0,2,3" ∧
    canWalk envC2alone entC2 0 (-1) =
      .ok (true, { entC2 with nextArea := some (pySplit "forest,0,2,3" ',') }, []) :=
  ⟨rfl, rfl, by decide, by decide,
   (lazy_exit_decides_offgrid_move envC2alone entC2 exitTile layerC2 0 (-1) rfl rfl
     (by decide) (by decide) (by decide) (by decide) (by decide)).2.1
     "forest,0,2,3" (by decide)⟩

/-- C4 (amended): arriving on a tile with `layermod:"+1"` (with the target
layer in bounds and the corresponding tile resolving) raises the entity's
layer by exactly 1, and the `on_tile` script fires THREE times for the
arrival: once for the arrival tile and twice for the corresponding tile of
the new layer — once inside `teleport` and once more after `__do_layermod`
returns from it. The claim's count of two is what the counterexample
refutes; everything else holds. -/
theorem layermod_plus_one_full_behavior (env : Env) (e : Entity) (t t2 : Tile) (l2 : Layer)
    (v1 v2 : String)
    (h1 : e.tile = some t)
    (h2 : assoc "layermod" t.properties = some "+1")
    (h3 : assoc "on_tile" t.properties = some v1)
    (h4 : 0 ≤ e.layer ∧ e.layer + 1 < (env.tilemap.layers.length : Int))
    (h5 : tileAt env (e.layer + 1) e.x e.y = .ok (some t2))
    (h6 : assoc "on_tile" t2.properties = some v2)
    (h7 : pyIndex env.tilemap.layers (e.layer + 1) = .ok l2)
    (h8 : assoc "on_layer" l2.properties = none)
    (h9 : pySplit v1 ':' ≠ pySplit v2 ':') :
    arrive env e =
      .ok ({ e with layer := e.layer + 1, tile := some t2 },
           [.scriptCall (pySplit v1 ':'), .scriptCall (pySplit v2 ':'),
            .scriptCall (pySplit v2 ':')]) ∧
    List.countP (fun ev => ev == Ev.scriptCall (pySplit v1 ':'))
      [Ev.scriptCall (pySplit v1 ':'), Ev.scriptCall (pySplit v2 ':'),
       Ev.scriptCall (pySplit v2 ':')] = 1 ∧
    List.countP (fun ev => ev == Ev.scriptCall (pySplit v2 ':'))
      [Ev.scriptCall (pySplit v1 ':'), Ev.scriptCall (pySplit v2 ':'),
       Ev.scriptCall (pySplit v2 ':')] = 2 ∧
    List.countP isScriptEv
      [Ev.scriptCall (pySplit v1 ':'), Ev.scriptCall (pySplit v2 ':'),
       Ev.scriptCall (pySplit v2 ':')] = 3 := by
  have hg : ¬(e.layer + 1 < 0 ∨ (env.tilemap.layers.length : Int) ≤ e.layer + 1 ∨
      misaligned (none : Option Int) env.tilemap.tilewidth = true ∨
      misaligned (none : Option Int) env.tilemap.tileheight = true) := by
    simp only [misaligned]
    simp
    omega
  have hteleport : teleport env e (e.layer + 1) none none =
      .ok ({ e with layer := e.layer + 1, tile := some t2 },
           [Ev.scriptCall (pySplit v2 ':')]) := by
    unfold teleport
    rw [if_neg hg]
    simp only [h5, callOnTile, callOnLayer, h6, h7, h8, List.append_nil]
  have hdl : doLayermod env e =
      .ok ({ e with layer := e.layer + 1, tile := some t2 },
           [Ev.scriptCall (pySplit v2 ':'), Ev.scriptCall (pySplit v2 ':')], true) := by
    unfold doLayermod
    rw [h1]
    have hs1 : startsChar "+1" '-' = false := by decide
    have hs2 : startsChar "+1" '+' = true := by decide
    have hs3 : pyToInt (strDrop1 "+1") = .ok 1 := by decide
    simp only [h2, hs1, hs2, hs3, Bool.false_eq_true, if_false, if_true, hteleport,
      callOnTile, h6]
    simp
  have har : arrive env e =
      .ok ({ e with layer := e.layer + 1, tile := some t2 },
           [.scriptCall (pySplit v1 ':'), .scriptCall (pySplit v2 ':'),
            .scriptCall (pySplit v2 ':')]) := by
    unfold arrive
    rw [h1]
    simp only [callOnTile, h1, h3, hdl]
    simp
  refine ⟨har, ?_, ?_, ?_⟩
  · simp [List.countP_cons, beq_iff_eq, h9, Ne.symm h9]
  · simp [List.countP_cons, beq_iff_eq, h9, Ne.symm h9]
  · simp [List.countP_cons, isScriptEv]

/-- C4 (witness): the three-fire layermod behavior applied to the concrete
two-layer scenario. -/
theorem layermod_plus_one_full_behavior_witness :
    entC4.tile = some arrTile ∧
    assoc "layermod" arrTile.properties = some "+1" ∧
    tileAt envC4 (entC4.layer + 1) entC4.x entC4.y = .ok (some upTile) ∧
    (arrive envC4 entC4 =
      .ok ({ entC4 with layer := entC4.layer + 1, tile := some upTile },
           [.scriptCall (pySplit "a:f" ':'), .scriptCall (pySplit "b:g" ':'),
            .scriptCall (pySplit "b:g" ':')]) ∧
     List.countP (fun ev => ev == Ev.scriptCall (pySplit "a:f" ':'))
       [Ev.scriptCall (pySplit "a:f" ':'), Ev.scriptCall (pySplit "b:g" ':'),
        Ev.scriptCall (pySplit "b:g" ':')] = 1 ∧
     List.countP (fun ev => ev == Ev.scriptCall (pySplit "b:g" ':'))
       [Ev.scriptCall (pySplit "a:f" ':'), Ev.scriptCall (pySplit "b:g" ':'),
        Ev.scriptCall (pySplit "b:g" ':')] = 2 ∧
     List.countP isScriptEv
       [Ev.scriptCall (pySplit "a:f" ':'), Ev.scriptCall (pySplit "b:g" ':'),
        Ev.scriptCall (pySplit "b:g" ':')] = 3) :=
  ⟨rfl, by decide, by decide,
   layermod_plus_one_full_behavior envC4 entC4 arrTile upTile layerC4up "a:f" "b:g"
     rfl (by decide) (by decide) (by decide) (by decide) (by decide) (by decide)
     (by decide) (by decide)⟩

theorem readLayers_no_script (ls : List (Nat × LayerDesc)) (b : Nat) (g : Option Nat) :
    ((readLayers ls b g).1).countP isOnEnterEv = 0 := by
  induction ls generalizing b g with
  | nil => simp [readLayers]
  | cons hd tl ih =>
    obtain ⟨z, l⟩ := hd
    simp only [readLayers]
    split_ifs with hv ht ho hb
    · exact ih b g
    · simp [List.countP_cons, isOnEnterEv, ih (b + 1) g]
    · exact ih b (some z)
    · simp [List.countP_cons, isOnEnterEv, ih b g]
    · exact ih b g

/-- C3 (amended): for every map description whose map-level properties
contain `on_enter`, `Tilemap._read` invokes the script bridge with its
colon-split value exactly once — but as the FIRST step of its trace,
before any tileset or layer of the graph is built, not after the graph is
fully built as the claim states (see the counterexample). -/
theorem on_enter_fires_exactly_once_first (d : MapDesc) (props : List (String × String))
    (v : String)
    (h1 : d.properties = some props) (h2 : assoc "on_enter" props = some v) :
    ∃ tl, tmRead d = REv.script (pySplit v ':') :: tl ∧ tl.countP isOnEnterEv = 0 := by
  unfold tmRead
  rw [h1]
  simp only [h2]
  refine ⟨_, rfl, ?_⟩
  simp only [List.append_eq, List.countP_append]
  have hB : (match assoc "title" props with
      | some w => [REv.title w]
      | none => ([] : List REv)).countP isOnEnterEv = 0 := by
    cases ht : assoc "title" props <;> simp [isOnEnterEv]
  have hC : (d.tilesets.map REv.tilesetBuilt).countP isOnEnterEv = 0 := by
    rw [List.countP_eq_zero]
    intro x hx
    rw [List.mem_map] at hx
    obtain ⟨a, _, rfl⟩ := hx
    simp [isOnEnterEv]
  have hL : ((readLayers d.layers.enum 0 none).1).countP isOnEnterEv = 0 :=
    readLayers_no_script _ _ _
  have hG : (match (readLayers d.layers.enum 0 none).2.2 with
      | some _ => (List.range (readLayers d.layers.enum 0 none).2.1).map REv.globalMerged
      | none => ([] : List REv)).countP isOnEnterEv = 0 := by
    cases hg : (readLayers d.layers.enum 0 none).2.2 with
    | none => simp
    | some z =>
      rw [List.countP_eq_zero]
      intro x hx
      rw [List.mem_map] at hx
      obtain ⟨a, _, rfl⟩ := hx
      simp [isOnEnterEv]
  simp [hB, hC, hL, hG]

/-- C3 (witness): the once-and-first behavior applied to the concrete map
description. -/
theorem on_enter_fires_exactly_once_first_witness :
    mapDescC3.properties = some [("on_enter", "s:f")] ∧
    assoc "on_enter" [("on_enter", "s:f")] = some "s:f" ∧
    (∃ tl, tmRead mapDescC3 = REv.script (pySplit "s:f" ':') :: tl ∧
      tl.countP isOnEnterEv = 0) :=
  ⟨rfl, rfl,
   on_enter_fires_exactly_once_first mapDescC3 [("on_enter", "s:f")] "s:f" rfl rfl⟩

end Driftwood
